import Mathlib

/-!
WoWStatTracker — SavedVariables ingestion pipeline, shallow embedding.

A verification development for the addon-data import pipeline of
`erikg/WoWStatTracker`.  The definitions below are translated from the C
sources:

* `src/core/lua_parser.c`  — literal evaluator glue, field extractors,
  character projector, JSON-ish serializers;
* `src/core/character.c` / `src/core/character.h` — the `Character`
  record, its defaults (`character_new`) and `character_copy`;
* `src/core/character_store.c` — `character_store_find`;
* `src/gui/windows/main_window.c` — the import-merge loop.

Modelling conventions:

* Lua values are the tagged tree `LuaVal`; a Lua table is carried as its
  entry list `List (LuaVal × LuaVal)` in iteration order (the order
  `lua_next` presents).  Tables produced by evaluating a literal have
  unique keys.
* C `double` is modelled as `ℚ`; the C cast `(int)d` truncates toward
  zero and is modelled by `truncToInt` (exact for values in `int` range;
  the out-of-range cast is undefined behaviour in C and outside the model).
* C strings are Lean `String`s; byte positions of the ASCII data handled
  here coincide with character positions.
* The Lua C API coercions are modelled faithfully: `lua_isstring` accepts
  strings *and numbers* and `lua_tostring` renders the number;
  `lua_isnumber` accepts numbers *and numeric strings*; `lua_isboolean`
  and `lua_istable` are strict.  (Lua 5.x reference manual, `lua_isstring`
  / `lua_isnumber`.)
-/

set_option autoImplicit false

namespace WST

/-- The tagged Lua value tree produced by evaluating the save-file literal.
A table is its list of key/value entries in `lua_next` iteration order. -/
inductive LuaVal where
  | nil
  | boolean (b : Bool)
  | num (q : ℚ)
  | str (s : String)
  | table (entries : List (LuaVal × LuaVal))

/-- A Lua table as the evaluator hands it to the extractors. -/
abbrev LuaTable := List (LuaVal × LuaVal)

/-- Models `lua_istable`. -/
def LuaVal.isTable : LuaVal → Bool
  | .table _ => true
  | _ => false

/-- Models `lua_type(v) == LUA_TSTRING` (the strict check, without the
`lua_isstring` number coercion). -/
def LuaVal.isStr : LuaVal → Bool
  | .str _ => true
  | _ => false

/-- Models `lua_type(v) == LUA_TNUMBER`. -/
def LuaVal.isNum : LuaVal → Bool
  | .num _ => true
  | _ => false

/-- Models `lua_isboolean` (strict: only booleans). -/
def LuaVal.isBool : LuaVal → Bool
  | .boolean _ => true
  | _ => false

/-- The C cast `(int)d` of a `double`: truncation toward zero. -/
def truncToInt (q : ℚ) : Int := q.num.tdiv (q.den : Int)

/-- Models the Lua number-to-string conversion (`lua_tostring` on a number,
`"%.14g"`): exact for the integer-valued numbers this save format carries;
a non-integral rational is rendered through the `toString` of `Rat`, an
abstraction of the decimal `%.14g` form that no claim of this development
depends on. -/
def luaNumToStr (q : ℚ) : String :=
  if q.den = 1 then toString q.num else toString q

/-- One character of C `isspace` (the whitespace `strtod` skips). -/
def isCSpace (c : Char) : Bool :=
  c = ' ' ∨ c = '\t' ∨ c = '\n' ∨ c = '\r' ∨ c = '\x0b' ∨ c = '\x0c'

/-- Digit value of a hexadecimal digit character, if any. -/
def hexDigit? (c : Char) : Option Nat :=
  if '0' ≤ c ∧ c ≤ '9' then some (c.toNat - '0'.toNat)
  else if 'a' ≤ c ∧ c ≤ 'f' then some (c.toNat - 'a'.toNat + 10)
  else if 'A' ≤ c ∧ c ≤ 'F' then some (c.toNat - 'A'.toNat + 10)
  else none

/-- Digit value of a decimal digit character, if any. -/
def decDigit? (c : Char) : Option Nat :=
  if '0' ≤ c ∧ c ≤ '9' then some (c.toNat - '0'.toNat) else none

/-- Accumulate a digit string in base `base`; `none` on a non-digit. -/
def digitsVal (digit? : Char → Option Nat) (base : Nat) : List Char → Nat → Option Nat
  | [], acc => some acc
  | c :: rest, acc =>
    match digit? c with
    | some d => digitsVal digit? base rest (acc * base + d)
    | none => none

/-- Split the longest digit prefix off a character list. -/
def spanDigits (digit? : Char → Option Nat) : List Char → List Char × List Char
  | [] => ([], [])
  | c :: rest =>
    match digit? c with
    | some _ =>
      let (ds, tail) := spanDigits digit? rest
      (c :: ds, tail)
    | none => ([], c :: rest)

/-- Parse an optional sign, returning the sign factor and the rest. -/
def parseSign : List Char → Int × List Char
  | '-' :: rest => (-1, rest)
  | '+' :: rest => (1, rest)
  | l => (1, l)

/-- Parse mantissa digits `ddd[.ddd]` into `(value, rest)`; at least one
digit is required on one of the two sides. -/
def parseDecMantissa (l : List Char) : Option (ℚ × List Char) :=
  let (ip, rest) := spanDigits decDigit? l
  match rest with
  | '.' :: rest' =>
    let (fp, rest'') := spanDigits decDigit? rest'
    if ip.isEmpty ∧ fp.isEmpty then none
    else
      match digitsVal decDigit? 10 ip 0, digitsVal decDigit? 10 fp 0 with
      | some iv, some fv =>
        some (((iv : ℚ) + (fv : ℚ) / ((10 : ℚ) ^ fp.length)), rest'')
      | _, _ => none
  | _ =>
    if ip.isEmpty then none
    else
      match digitsVal decDigit? 10 ip 0 with
      | some iv => some ((iv : ℚ), rest)
      | none => none

/-- Parse an optional decimal exponent `e[+-]ddd`. -/
def parseExponent (l : List Char) : Option (Int × List Char) :=
  match l with
  | 'e' :: rest | 'E' :: rest =>
    let (sgn, rest') := parseSign rest
    let (ds, rest'') := spanDigits decDigit? rest'
    if ds.isEmpty then none
    else
      match digitsVal decDigit? 10 ds 0 with
      | some ev => some (sgn * (ev : Int), rest'')
      | none => none
  | _ => some (0, l)

/-- Models the Lua string-to-number conversion (`lua_tonumber` on a string,
`l_str2d`/`l_str2int`): optional surrounding whitespace, an optional sign,
then either a hexadecimal integer `0x…` or a decimal numeral with optional
fraction and exponent; anything else does not convert. -/
def luaStrToNum (s : String) : Option ℚ :=
  let l := (s.data.dropWhile isCSpace).reverse.dropWhile isCSpace |>.reverse
  let (sgn, l) := parseSign l
  match l with
  | '0' :: 'x' :: rest | '0' :: 'X' :: rest =>
    let (ds, tail) := spanDigits hexDigit? rest
    if ds.isEmpty ∨ ¬ tail.isEmpty then none
    else (digitsVal hexDigit? 16 ds 0).map (fun v => (sgn : ℚ) * (v : ℚ))
  | _ =>
    match parseDecMantissa l with
    | none => none
    | some (m, rest) =>
      match parseExponent rest with
      | some (e, []) =>
        some ((sgn : ℚ) * m * (if 0 ≤ e then (10 : ℚ) ^ e.toNat else ((10 : ℚ) ^ (-e).toNat)⁻¹))
      | _ => none

/-- Models the `lua_isstring`/`lua_tostring` pair on a value: present for
strings, and for numbers (which Lua converts). -/
def luaToString? : LuaVal → Option String
  | .str s => some s
  | .num q => some (luaNumToStr q)
  | _ => none

/-- Models the `lua_isnumber`/`lua_tonumber` pair on a value: present for
numbers, and for strings Lua converts to a number. -/
def luaToNumber? : LuaVal → Option ℚ
  | .num q => some q
  | .str s => luaStrToNum s
  | _ => none

/-- Models `lua_isboolean`/`lua_toboolean`: present only for booleans. -/
def luaToBool? : LuaVal → Option Bool
  | .boolean b => some b
  | _ => none

/-- Models `lua_getfield(L, -1, key)`: the value stored under the *string*
key `key`, or nil when absent.  Tables built by evaluating a literal have
unique keys, so first match is the match. -/
def luaGetField : LuaTable → String → LuaVal
  | [], _ => .nil
  | (k, v) :: rest, key =>
    match k with
    | .str s => if s = key then v else luaGetField rest key
    | _ => luaGetField rest key

/-- The table stored under `key`, if the field holds a table
(`lua_getfield` followed by `lua_istable`). -/
def luaGetTable? (t : LuaTable) (key : String) : Option LuaTable :=
  match luaGetField t key with
  | .table e => some e
  | _ => none

/-- Extractor `get_lua_string` (src/core/lua_parser.c): present when `lua_isstring`
accepts the value of the field, i.e. for strings and numbers. -/
def get_lua_string (t : LuaTable) (key : String) : Option String :=
  luaToString? (luaGetField t key)

/-- Extractor `get_lua_number` (src/core/lua_parser.c): present when `lua_isnumber`
accepts the value of the field, i.e. for numbers and numeric strings. -/
def get_lua_number (t : LuaTable) (key : String) : Option ℚ :=
  luaToNumber? (luaGetField t key)

/-- Extractor `get_lua_bool` (src/core/lua_parser.c): present only for booleans. -/
def get_lua_bool (t : LuaTable) (key : String) : Option Bool :=
  luaToBool? (luaGetField t key)

/-- Extractor `get_nested_number`: the outer key must resolve to a table
(`lua_istable`, strict), then `get_lua_number` on the inner key. -/
def get_nested_number (t : LuaTable) (table_key field_key : String) : Option ℚ :=
  (luaGetTable? t table_key).bind (fun inner => get_lua_number inner field_key)

/-- Extractor `get_nested_bool`: outer key must resolve to a table, then
`get_lua_bool` on the inner key. -/
def get_nested_bool (t : LuaTable) (table_key field_key : String) : Option Bool :=
  (luaGetTable? t table_key).bind (fun inner => get_lua_bool inner field_key)

/-- Counter `count_t8_plus_rewards`: inside `t[vault_key][tiers_key]` (each level
checked with `lua_istable`), count the entries whose value `lua_isnumber`
accepts and whose `(int)` cast is at least 8. -/
def count_t8_plus_rewards (t : LuaTable) (vault_key tiers_key : String) : Int :=
  match luaGetTable? t vault_key with
  | none => 0
  | some vt =>
    match luaGetTable? vt tiers_key with
    | none => 0
    | some tiers =>
      tiers.foldl (fun acc kv =>
        match luaToNumber? kv.2 with
        | some q => if 8 ≤ truncToInt q then acc + 1 else acc
        | none => acc) 0

/-! Bounded JSON-ish serializers.

`lua_array_to_json_string` builds its output inside a fixed
`char buf[512]` (write position starts after the opening `[`, an entry is
copied only when `pos + len < sizeof(buf) - 2 = 510`), and
`slot_upgrades_to_json_string` inside `char buf[2048]` (fit check
`pos + len < 2046`) after staging each rendered entry through a
`char entry[256]` — so `snprintf` truncates an entry to 255 bytes before
the fit check.  `pos` is the current length of the accumulated string. -/

/-- One append attempt into the bounded buffer: copy the rendered piece
only when it fits (`pos + len < lim`); otherwise drop it and keep the
`first` flag so the next appended entry still carries no comma. -/
def buf_append (lim : Nat) (st : String × Bool) (piece : Option String) : String × Bool :=
  match piece with
  | none => st
  | some p => if st.1.length + p.length < lim then (st.1 ++ p, false) else st

/-- The shared `lua_next` accumulation loop of both serializers: render
the value of each entry (the renderer sees the `first` flag for the comma) and
append bounded. -/
def json_fold (lim : Nat) (render : Bool → LuaVal → Option String) :
    LuaTable → String × Bool → String × Bool
  | [], st => st
  | kv :: rest, st => json_fold lim render rest (buf_append lim st (render st.2 kv.2))

/-- Truncation `snprintf` applies when the rendering exceeds the staging
buffer: keep the first `cap` bytes (characters, for the ASCII data at
hand). -/
def snprintfTrunc (cap : Nat) (s : String) : String :=
  String.mk (s.data.take cap)

/-- The rendered piece for one array element in `lua_array_to_json_string`:
only values `lua_isnumber` accepts, cast to `int` and printed with `%d`
(in-range `int` values never overflow the 16-byte `num` buffer). -/
def array_render (first : Bool) (v : LuaVal) : Option String :=
  (luaToNumber? v).map (fun q => (if first then "" else ",") ++ toString (truncToInt q))

/-- Serializer `lua_array_to_json_string`: serialize `t[table_key][array_key]` (both
levels must be tables) into `[n1,n2,…]`, dropping elements that do not fit
the 512-byte buffer. -/
def lua_array_to_json_string (t : LuaTable) (table_key array_key : String) : Option String :=
  match luaGetTable? t table_key with
  | none => none
  | some outer =>
    match luaGetTable? outer array_key with
    | none => none
    | some arr =>
      let st := json_fold 510 array_render arr ("[", true)
      some (st.1 ++ "]")

/-- The full (untruncated) rendering of one slot-upgrade record, as the
`snprintf` format string in `slot_upgrades_to_json_string` produces it. -/
def slot_entry_full (first : Bool) (slot : Int) (slot_name track : String)
    (current mx : Int) : String :=
  (if first then "" else ",") ++
    "\x7b\"slot\":" ++ toString slot ++
    ",\"slot_name\":\"" ++ slot_name ++
    "\",\"track\":\"" ++ track ++
    "\",\"current\":" ++ toString current ++
    ",\"max\":" ++ toString mx ++ "\x7d"

/-- The rendered piece for one `slot_upgrades` entry: the value must be a
table; `slot`/`current`/`max` default to 0 and `slot_name`/`track` to `""`
on missing or non-coercible fields; entries with `slot ≤ 0` or an empty
`track` are skipped; `snprintf` into `char entry[256]` truncates the
rendering to its first 255 bytes. -/
def slot_render (first : Bool) (v : LuaVal) : Option String :=
  match v with
  | .table et =>
    let slot := ((luaToNumber? (luaGetField et "slot")).map truncToInt).getD 0
    let slot_name := (luaToString? (luaGetField et "slot_name")).getD ""
    let track := (luaToString? (luaGetField et "track")).getD ""
    let current := ((luaToNumber? (luaGetField et "current")).map truncToInt).getD 0
    let mx := ((luaToNumber? (luaGetField et "max")).map truncToInt).getD 0
    if 0 < slot ∧ track ≠ "" then
      some (snprintfTrunc 255 (slot_entry_full first slot slot_name track current mx))
    else none
  | _ => none

/-- Serializer `slot_upgrades_to_json_string`: serialize the `slot_upgrades` table
into a JSON-array-of-objects string within the 2048-byte buffer; `NULL`
(absent) when nothing was appended. -/
def slot_upgrades_to_json_string (t : LuaTable) : Option String :=
  match luaGetTable? t "slot_upgrades" with
  | none => none
  | some su =>
    let st := json_fold 2046 slot_render su ("[", true)
    if st.2 then none else some (st.1 ++ "]")

/-! The Character record. -/

/-- Constant `WST_MAX_TIMEWALK` (src/core/types.h). -/
def WST_MAX_TIMEWALK : Int := 5

/-- Record `struct Character` as populated by `src/core/character.c` and
`src/core/lua_parser.c`.  C string fields that the code leaves `NULL`
until an import fills them (`week_id` and the four per-slot JSON strings)
are `Option String`; the always-allocated ones are `String`. -/
structure Character where
  realm : String
  name : String
  guild : String
  item_level : ℚ
  heroic_items : Int
  champion_items : Int
  veteran_items : Int
  adventure_items : Int
  old_items : Int
  vault_visited : Bool
  delves : Int
  dungeons : Int
  vault_t8_plus : Int
  gilded_stash : Int
  gearing_up : Bool
  quests : Bool
  timewalk : Int
  notes : String
  week_id : Option String
  upgrade_current : Int
  upgrade_max : Int
  socket_missing_count : Int
  socket_empty_count : Int
  enchant_missing_count : Int
  slot_upgrades_json : Option String
  missing_sockets_json : Option String
  empty_sockets_json : Option String
  missing_enchants_json : Option String
  deriving Repr, DecidableEq

/-- Constructor `character_new`: `wst_calloc` zeroes every numeric/boolean field, the
required strings become `""`, and the import-only strings stay `NULL`. -/
def character_new : Character :=
  { realm := "", name := "", guild := "", item_level := 0,
    heroic_items := 0, champion_items := 0, veteran_items := 0,
    adventure_items := 0, old_items := 0, vault_visited := false,
    delves := 0, dungeons := 0, vault_t8_plus := 0, gilded_stash := 0,
    gearing_up := false, quests := false, timewalk := 0, notes := "",
    week_id := none, upgrade_current := 0, upgrade_max := 0,
    socket_missing_count := 0, socket_empty_count := 0,
    enchant_missing_count := 0, slot_upgrades_json := none,
    missing_sockets_json := none, empty_sockets_json := none,
    missing_enchants_json := none }

/-- Deep copy `character_copy` (src/core/character.c): a fresh zeroed record
receiving every field explicitly listed in the function — which does *not*
include `dungeons` and `vault_t8_plus`, so those stay zero in the copy. -/
def character_copy (src : Character) : Character :=
  { realm := src.realm, name := src.name, guild := src.guild,
    notes := src.notes, item_level := src.item_level,
    heroic_items := src.heroic_items, champion_items := src.champion_items,
    veteran_items := src.veteran_items, adventure_items := src.adventure_items,
    old_items := src.old_items, vault_visited := src.vault_visited,
    delves := src.delves, gilded_stash := src.gilded_stash,
    gearing_up := src.gearing_up, quests := src.quests,
    timewalk := src.timewalk, upgrade_current := src.upgrade_current,
    upgrade_max := src.upgrade_max,
    socket_missing_count := src.socket_missing_count,
    socket_empty_count := src.socket_empty_count,
    enchant_missing_count := src.enchant_missing_count,
    week_id := src.week_id,
    slot_upgrades_json := src.slot_upgrades_json,
    missing_sockets_json := src.missing_sockets_json,
    empty_sockets_json := src.empty_sockets_json,
    missing_enchants_json := src.missing_enchants_json,
    dungeons := 0, vault_t8_plus := 0 }

/-! Character projector. -/

/-- Helper for the dash split `strrchr` performs: the characters before the
last dash and the characters after it, `none` when no dash occurs. -/
def splitLastDashAux : List Char → Option (List Char × List Char)
  | [] => none
  | c :: rest =>
    match splitLastDashAux rest with
    | some (n, r) => some (c :: n, r)
    | none => if c = '-' then some ([], rest) else none

/-- Split `"Name-Realm"` on its **last** dash into `(name, realm)`. -/
def splitLastDash (s : String) : Option (String × String) :=
  (splitLastDashAux s.data).map (fun p => (String.mk p.1, String.mk p.2))

/-- Field `gearing_up` as `parse_character` reads it (absent keeps the calloc
default `false`). -/
def gearing_up_from (t : LuaTable) : Bool :=
  (get_lua_bool t "gearing_up").getD false

/-- The delve derivation of `parse_character`: `vault_delves.count`, minus
one when `gearing_up` was set and the stored count is positive (the
gearing-up completion itself counts as one delve in the addon data);
absent keeps 0. -/
def delves_from (t : LuaTable) : Int :=
  match get_nested_number t "vault_delves" "count" with
  | none => 0
  | some d =>
    let dl := truncToInt d
    if gearing_up_from t ∧ 0 < dl then dl - 1 else dl

/-- The timewalk derivation of `parse_character`: only when the nested
`timewalking_quest.completed` boolean is *present* does the code act —
`true` stores `WST_MAX_TIMEWALK`, `false` stores the nested `progress`
(absent keeps 0); when `completed` is absent the whole block is skipped
and `progress` is never read. -/
def timewalk_from (t : LuaTable) : Int :=
  match get_nested_bool t "timewalking_quest" "completed" with
  | none => 0
  | some true => WST_MAX_TIMEWALK
  | some false => ((get_nested_number t "timewalking_quest" "progress").map truncToInt).getD 0

/-- Projector `parse_character` (src/core/lua_parser.c): split the compound key on
its last dash (`none` when there is no dash), then populate a fresh
`character_create(realm, name)` record field by field.  Each field is
written by exactly one statement of the C function and absent/mistyped
source fields keep the `character_new` default, so the embedding gives
each field value directly; the C sequencing matters only for the
`gearing_up`-before-delves dependence, which `delves_from` reflects. -/
def parse_character (char_key : String) (t : LuaTable) : Option Character :=
  (splitLastDash char_key).map (fun nr =>
    { realm := nr.2, name := nr.1,
      guild := (get_lua_string t "guild").getD "",
      item_level := (get_lua_number t "item_level").getD 0,
      heroic_items := ((get_lua_number t "heroic_items").map truncToInt).getD 0,
      champion_items := ((get_lua_number t "champion_items").map truncToInt).getD 0,
      veteran_items := ((get_lua_number t "veteran_items").map truncToInt).getD 0,
      adventure_items := ((get_lua_number t "adventure_items").map truncToInt).getD 0,
      old_items := ((get_lua_number t "old_items").map truncToInt).getD 0,
      vault_visited := (get_lua_bool t "vault_visited").getD false,
      gearing_up := gearing_up_from t,
      quests := (get_lua_bool t "quests").getD false,
      delves := delves_from t,
      dungeons := ((get_nested_number t "vault_dungeons" "count").map truncToInt).getD 0,
      vault_t8_plus := count_t8_plus_rewards t "vault_delves" "tiers" +
        count_t8_plus_rewards t "vault_dungeons" "levels",
      gilded_stash := ((get_nested_number t "gilded_stash" "claimed").map truncToInt).getD 0,
      timewalk := timewalk_from t,
      week_id := get_lua_string t "week_id",
      upgrade_current := ((get_lua_number t "upgrade_current").map truncToInt).getD 0,
      upgrade_max := ((get_lua_number t "upgrade_max").map truncToInt).getD 0,
      socket_missing_count := truncToInt
        ((get_nested_number t "socket_info" "socketable_count").getD 0 -
         (get_nested_number t "socket_info" "socketed_count").getD 0),
      socket_empty_count := truncToInt
        ((get_nested_number t "socket_info" "empty_count").getD 0),
      enchant_missing_count := truncToInt
        ((get_nested_number t "enchant_info" "enchantable_count").getD 0 -
         (get_nested_number t "enchant_info" "enchant_count").getD 0),
      notes := "",
      slot_upgrades_json := slot_upgrades_to_json_string t,
      missing_sockets_json := lua_array_to_json_string t "socket_info" "missing_sockets",
      empty_sockets_json := lua_array_to_json_string t "socket_info" "empty_sockets",
      missing_enchants_json := lua_array_to_json_string t "enchant_info" "missing_enchants" })

/-! Whole-file evaluation pipeline. -/

/-- The character-table iteration of `lua_parser_parse_content`: each
entry whose key is a string and whose value is a table goes through
`parse_character`; a `NULL` return (dash-less key) is simply not added and
the loop continues.  (A numeric key would pass `lua_isstring`, but calling
`lua_tostring` on a live `lua_next` key is undefined behaviour per the Lua
manual; the defined behaviour covers string keys.) -/
def project_characters (entries : LuaTable) : List Character :=
  entries.filterMap (fun kv =>
    match kv.1, kv.2 with
    | .str key, .table ct => parse_character key ct
    | _, _ => none)

/-- Result record `LuaParseResult`: the projected characters plus the optional addon
version string from `metadata.version`. -/
structure LuaParseResult where
  characters : List Character
  addon_version : Option String
  deriving Repr, DecidableEq

/-- Stripper for the known assignment prefix: drop the leading
whitespace/BOM bytes, then a
`"WoWStatTrackerDB = "` assignment prefix when present.  (The C loop skips
the bytes 0xEF/0xBB/0xBF individually; at character level that is the BOM
code point together with the corresponding Latin-1 code points.) -/
def strip_prefix (content : String) : String :=
  let rest := content.data.dropWhile (fun ch =>
    ch = ' ' ∨ ch = '\t' ∨ ch = '\r' ∨ ch = '\n' ∨
    ch = '\uFEFF' ∨ ch = 'ï' ∨ ch = '»' ∨ ch = '¿')
  let pre := "WoWStatTrackerDB = ".data
  if pre.isPrefixOf rest then String.mk (rest.drop pre.length)
  else String.mk rest

/-- Evaluator glue `lua_parser_parse_content`, parametrized by the Lua
interpreter: `ev`
maps the constructed script `"return <stripped text>"` to the single value
it leaves on the stack (`none` for a load/run error or an empty result).
Any non-success leg returns the zeroed `LuaParseResult`; a table result
yields `metadata.version` (when `metadata` is a table) and the projected
entries of the `characters` table (when present). -/
def lua_parser_parse_content (ev : String → Option LuaVal) (content : String) : LuaParseResult :=
  let script := "return " ++ strip_prefix content
  match ev script with
  | none => { characters := [], addon_version := none }
  | some v =>
    match v with
    | .table root =>
      let version :=
        match luaGetField root "metadata" with
        | .table mt => get_lua_string mt "version"
        | _ => none
      match luaGetField root "characters" with
      | .table cs => { characters := project_characters cs, addon_version := version }
      | _ => { characters := [], addon_version := version }
    | _ => { characters := [], addon_version := none }

/-! Import merge (src/gui/windows/main_window.c, src/core/character_store.c). -/

/-- Lookup `character_store_find`: index of the first stored character whose
realm and name both compare equal (`wst_strcmp`, case-sensitive). -/
def character_store_find (store : List Character) (realm name : String) : Option Nat :=
  store.findIdx? (fun c => c.realm == realm && c.name == name)

/-- The update branch of the import loop: overwrite the addon-sourced
fields guild, item_level, the five gear counts, vault_visited, delves,
gilded_stash, gearing_up, quests and timewalk on the existing record;
every other field (notes in particular) is left as it was.  (`guild` is
guarded by `if (addonChar->guild)` in C; the parser always allocates it.) -/
def merge_update (existing addon : Character) : Character :=
  { existing with
    guild := addon.guild,
    item_level := addon.item_level,
    heroic_items := addon.heroic_items,
    champion_items := addon.champion_items,
    veteran_items := addon.veteran_items,
    adventure_items := addon.adventure_items,
    old_items := addon.old_items,
    vault_visited := addon.vault_visited,
    delves := addon.delves,
    gilded_stash := addon.gilded_stash,
    gearing_up := addon.gearing_up,
    quests := addon.quests,
    timewalk := addon.timewalk }

/-- One iteration of the import loop, for one parsed character.  The C
guard `if (!addonChar || !addonChar->name || !addonChar->realm) continue;`
skips only `NULL` pointers; the strings the parser produces are never `NULL`
(allocation failure aside), so the guard never skips an embedded
character.  Matched: update in place, bump `updatedCount`; unmatched:
insert a `character_copy`, bump `importedCount`. -/
def import_step (acc : List Character × Nat × Nat) (addon : Character) :
    List Character × Nat × Nat :=
  let store := acc.1
  let ins := acc.2.1
  let upd := acc.2.2
  match character_store_find store addon.realm addon.name with
  | some i =>
    match store.get? i with
    | some existing => (store.set i (merge_update existing addon), ins, upd + 1)
    | none => (store, ins, upd)
  | none => (store ++ [character_copy addon], ins + 1, upd)

/-- The whole import-merge loop over the parse result: returns the final
collection together with `(importedCount, updatedCount)`. -/
def import_all (parsed : List Character) (store : List Character) :
    List Character × Nat × Nat :=
  parsed.foldl import_step (store, 0, 0)

/-! Evaluator capability surface (claim C1).

The C parser builds its interpreter with `luaL_newstate()` followed by
`luaL_openlibs(L)` (src/core/lua_parser.c lines 94 and 97, and identically
in the native variant), and only then runs the save-file text.
`luaL_openlibs` loads every Lua standard library — the `loadedlibs` list
of `linit.c`.  The evaluated literal therefore runs with that whole
surface in scope. -/

/-- Standard libraries `luaL_openlibs` loads into the state the save-file
text is evaluated in (Lua `linit.c`): base, package, coroutine, table, io,
os, string, math, utf8, debug. -/
def luaParserOpenedLibs : List String :=
  ["base", "package", "coroutine", "table", "io", "os", "string", "math", "utf8", "debug"]

/-- Libraries whose surface is pure data construction.  Excluded: `io`
(file reads/writes), `os` (`os.execute`, `os.remove`, `os.rename` —
process control and file-system mutation), `package` (`require` and
`package.loadlib` reach the file system and native code), `base`
(`dofile`/`loadfile`/`load` read files), `debug` (interpreter internals). -/
def pureDataLibs : List String := ["coroutine", "table", "string", "math", "utf8"]

/-- Whether the evaluation environment the parser exposes to the literal
is restricted to pure data construction. -/
def evaluatorSandboxedToPureData : Bool :=
  luaParserOpenedLibs.all (fun l => pureDataLibs.contains l)

/-! Helper lemmas. -/

theorem truncToInt_natCast (n : ℕ) : truncToInt (n : ℚ) = (n : ℤ) := by
  unfold truncToInt
  rw [Rat.num_natCast, Rat.den_natCast]
  exact Int.tdiv_one _

theorem splitLastDashAux_of_no_dash (l : List Char) (h : '-' ∉ l) :
    splitLastDashAux l = none := by
  induction l with
  | nil => rfl
  | cons c rest ih =>
    have hc : ¬ c = '-' := fun hc => h (hc ▸ List.mem_cons_self c rest)
    have hr : '-' ∉ rest := fun hr => h (List.mem_cons_of_mem c hr)
    simp only [splitLastDashAux]
    rw [ih hr]
    simp [hc]

theorem splitLastDashAux_append (n r : List Char) (h : '-' ∉ r) :
    splitLastDashAux (n ++ '-' :: r) = some (n, r) := by
  induction n with
  | nil =>
    rw [List.nil_append]
    simp only [splitLastDashAux]
    rw [splitLastDashAux_of_no_dash r h]
    simp
  | cons c rest ih =>
    rw [List.cons_append]
    simp only [splitLastDashAux]
    rw [ih]

theorem splitLastDash_of_no_dash (s : String) (h : '-' ∉ s.data) :
    splitLastDash s = none := by
  unfold splitLastDash
  rw [splitLastDashAux_of_no_dash s.data h]
  rfl

theorem splitLastDash_append (name realm : String) (h : '-' ∉ realm.data) :
    splitLastDash (name ++ "-" ++ realm) = some (name, realm) := by
  unfold splitLastDash
  have hd : (name ++ "-" ++ realm).data = name.data ++ '-' :: realm.data := by
    rw [String.data_append, String.data_append]
    have hdash : "-".data = ['-'] := rfl
    rw [hdash, List.append_assoc, List.singleton_append]
  rw [hd, splitLastDashAux_append name.data realm.data h]
  rfl

theorem buf_append_length (lim : ℕ) (st : String × Bool) (p : Option String)
    (h : st.1.length < lim) : (buf_append lim st p).1.length < lim := by
  unfold buf_append
  cases p with
  | none => exact h
  | some piece =>
    dsimp only
    split
    · rename_i hfit
      simpa [String.length_append] using hfit
    · exact h

theorem buf_append_suffix (lim : ℕ) (st : String × Bool) (p : Option String) :
    ∃ q, (buf_append lim st p).1 = st.1 ++ q := by
  unfold buf_append
  cases p with
  | none => exact ⟨"", (String.append_empty _).symm⟩
  | some piece =>
    dsimp only
    split
    · exact ⟨piece, rfl⟩
    · exact ⟨"", (String.append_empty _).symm⟩

theorem json_fold_length (lim : ℕ) (render : Bool → LuaVal → Option String)
    (entries : LuaTable) :
    ∀ st : String × Bool, st.1.length < lim →
      (json_fold lim render entries st).1.length < lim := by
  induction entries with
  | nil => intro st h; exact h
  | cons kv rest ih =>
    intro st h
    unfold json_fold
    exact ih _ (buf_append_length lim st _ h)

theorem json_fold_suffix (lim : ℕ) (render : Bool → LuaVal → Option String)
    (entries : LuaTable) :
    ∀ st : String × Bool, ∃ q, (json_fold lim render entries st).1 = st.1 ++ q := by
  induction entries with
  | nil => intro st; exact ⟨"", (String.append_empty _).symm⟩
  | cons kv rest ih =>
    intro st
    unfold json_fold
    obtain ⟨q0, hq0⟩ := buf_append_suffix lim st (render st.2 kv.2)
    obtain ⟨q, hq⟩ := ih (buf_append lim st (render st.2 kv.2))
    exact ⟨q0 ++ q, by rw [hq, hq0, String.append_assoc]⟩

/-! Claim theorems. -/

/-- C1: the claim demands that the execution environment exposed to the
evaluated literal provide no capability to read or write outside the
parse — no file I/O, no network, no process control — i.e. be sandboxed
to pure data construction.  The parser instead opens the complete Lua
standard library (`luaL_openlibs`) before evaluating the text, so `io`
(file I/O) and `os` (process control, file deletion) are both reachable
from the literal, and the environment is not restricted to the
pure-data libraries. -/
theorem C1_evaluator_not_sandboxed :
    evaluatorSandboxedToPureData = false ∧
    luaParserOpenedLibs.contains "io" = true ∧
    luaParserOpenedLibs.contains "os" = true := by
  decide

/-- C5: for every compound key `Name ++ "-" ++ Realm` whose realm part is
dash-free, the projector splits on the last dash and the projected
character recovers Name and Realm exactly — including an empty Name
(leading-dash key). -/
theorem C5_compound_key_roundtrip (name realm : String) (t : LuaTable)
    (h : '-' ∉ realm.data) :
    (parse_character (name ++ "-" ++ realm) t).map (fun c => (c.name, c.realm)) =
      some (name, realm) := by
  unfold parse_character
  rw [splitLastDash_append name realm h]
  rfl

/-- Witness for C5 at the leading-dash edge case: the empty name with
realm `Server`. -/
theorem C5_compound_key_roundtrip_witness :
    '-' ∉ "Server".data ∧
    (parse_character ("" ++ "-" ++ "Server") []).map (fun c => (c.name, c.realm)) =
      some ("", "Server") :=
  ⟨by decide, C5_compound_key_roundtrip "" "Server" [] (by decide)⟩

/-- C6: an entry of the characters table whose string key contains no dash
projects to nothing and the surrounding entries are projected exactly as
if the malformed entry were absent — one malformed key never aborts the
batch. -/
theorem C6_malformed_key_skipped (pre post : LuaTable) (k : String) (ct : LuaTable)
    (h : '-' ∉ k.data) :
    project_characters (pre ++ (LuaVal.str k, LuaVal.table ct) :: post) =
      project_characters pre ++ project_characters post := by
  unfold project_characters
  rw [List.filterMap_append]
  congr 1
  rw [List.filterMap_cons]
  have hnone : parse_character k ct = none := by
    unfold parse_character
    rw [splitLastDash_of_no_dash k h]
    rfl
  simp [hnone]

/-- Witness for C6: three well-formed entries around one dash-less key
project to exactly three characters. -/
theorem C6_malformed_key_skipped_witness :
    '-' ∉ "NoDashKey".data ∧
    project_characters
        ([(LuaVal.str "Char1-Realm", LuaVal.table [])] ++
          (LuaVal.str "NoDashKey", LuaVal.table []) ::
          [(LuaVal.str "Char2-Realm", LuaVal.table []),
           (LuaVal.str "Char3-Realm", LuaVal.table [])]) =
      project_characters [(LuaVal.str "Char1-Realm", LuaVal.table [])] ++
        project_characters [(LuaVal.str "Char2-Realm", LuaVal.table []),
          (LuaVal.str "Char3-Realm", LuaVal.table [])] ∧
    (project_characters
        ([(LuaVal.str "Char1-Realm", LuaVal.table [])] ++
          (LuaVal.str "NoDashKey", LuaVal.table []) ::
          [(LuaVal.str "Char2-Realm", LuaVal.table []),
           (LuaVal.str "Char3-Realm", LuaVal.table [])])).length = 3 :=
  ⟨by decide,
   C6_malformed_key_skipped [(LuaVal.str "Char1-Realm", LuaVal.table [])]
     [(LuaVal.str "Char2-Realm", LuaVal.table []),
      (LuaVal.str "Char3-Realm", LuaVal.table [])] "NoDashKey" [] (by decide),
   by decide⟩

/-- C7: whenever the interpreter leaves no value or a non-table value for
the constructed script — the empty-input, invalid-literal and
non-table-result cases — the evaluator returns the empty-but-valid
result: zero characters, no version, and no error is propagated (the
function is total). -/
theorem C7_non_table_yields_empty (ev : String → Option LuaVal) (content : String)
    (h : ((ev ("return " ++ strip_prefix content)).map LuaVal.isTable).getD false = false) :
    lua_parser_parse_content ev content = { characters := [], addon_version := none } := by
  cases hev : ev ("return " ++ strip_prefix content) with
  | none => simp only [lua_parser_parse_content]; rw [hev]
  | some v =>
    rw [hev] at h
    cases v with
    | table root => simp [Option.map, Option.getD, LuaVal.isTable] at h
    | nil => simp only [lua_parser_parse_content]; rw [hev]
    | boolean b => simp only [lua_parser_parse_content]; rw [hev]
    | num q => simp only [lua_parser_parse_content]; rw [hev]
    | str s => simp only [lua_parser_parse_content]; rw [hev]

/-- Witness for C7: an interpreter that rejects the script (parse error)
on empty input yields the empty result. -/
theorem C7_non_table_yields_empty_witness :
    (((fun _ => none : String → Option LuaVal)
        ("return " ++ strip_prefix "")).map LuaVal.isTable).getD false = false ∧
    lua_parser_parse_content (fun _ => none) "" =
      { characters := [], addon_version := none } :=
  ⟨rfl, C7_non_table_yields_empty (fun _ => none) "" rfl⟩

/-- C2: when a parsed character matches an existing entry by (realm, name),
one import step replaces exactly that entry by the in-place update and
bumps only `updatedCount`; the update overwrites exactly the addon-sourced
fields guild, item_level, the five gear-rarity counts, vault_visited,
delves, gilded_stash, gearing_up, quests and timewalk, while notes — and
every other field of the existing record — is unchanged. -/
theorem C2_merge_update_fields (store : List Character) (ins upd : ℕ)
    (addon : Character) (i : ℕ) (existing : Character)
    (hfind : character_store_find store addon.realm addon.name = some i)
    (hget : store.get? i = some existing) :
    import_step (store, ins, upd) addon =
      (store.set i (merge_update existing addon), ins, upd + 1) ∧
    (merge_update existing addon).guild = addon.guild ∧
    (merge_update existing addon).item_level = addon.item_level ∧
    (merge_update existing addon).heroic_items = addon.heroic_items ∧
    (merge_update existing addon).champion_items = addon.champion_items ∧
    (merge_update existing addon).veteran_items = addon.veteran_items ∧
    (merge_update existing addon).adventure_items = addon.adventure_items ∧
    (merge_update existing addon).old_items = addon.old_items ∧
    (merge_update existing addon).vault_visited = addon.vault_visited ∧
    (merge_update existing addon).delves = addon.delves ∧
    (merge_update existing addon).gilded_stash = addon.gilded_stash ∧
    (merge_update existing addon).gearing_up = addon.gearing_up ∧
    (merge_update existing addon).quests = addon.quests ∧
    (merge_update existing addon).timewalk = addon.timewalk ∧
    (merge_update existing addon).notes = existing.notes ∧
    (merge_update existing addon).realm = existing.realm ∧
    (merge_update existing addon).name = existing.name ∧
    (merge_update existing addon).week_id = existing.week_id ∧
    (merge_update existing addon).dungeons = existing.dungeons ∧
    (merge_update existing addon).vault_t8_plus = existing.vault_t8_plus ∧
    (merge_update existing addon).upgrade_current = existing.upgrade_current ∧
    (merge_update existing addon).upgrade_max = existing.upgrade_max ∧
    (merge_update existing addon).socket_missing_count = existing.socket_missing_count ∧
    (merge_update existing addon).socket_empty_count = existing.socket_empty_count ∧
    (merge_update existing addon).enchant_missing_count = existing.enchant_missing_count ∧
    (merge_update existing addon).slot_upgrades_json = existing.slot_upgrades_json ∧
    (merge_update existing addon).missing_sockets_json = existing.missing_sockets_json ∧
    (merge_update existing addon).empty_sockets_json = existing.empty_sockets_json ∧
    (merge_update existing addon).missing_enchants_json = existing.missing_enchants_json := by
  refine ⟨?_, rfl, rfl, rfl, rfl, rfl, rfl, rfl, rfl, rfl, rfl, rfl, rfl, rfl,
    rfl, rfl, rfl, rfl, rfl, rfl, rfl, rfl, rfl, rfl, rfl, rfl, rfl, rfl, rfl⟩
  simp only [import_step, hfind, hget]

/-- Concrete character for the C2 witness: an existing record carrying
user notes. -/
def c2existing : Character :=
  { character_new with name := "Hero", realm := "Server", notes := "keep these notes" }

/-- Concrete character for the C2 witness: the freshly parsed record for
the same (realm, name). -/
def c2addon : Character :=
  { character_new with
    name := "Hero"
    realm := "Server"
    guild := "MENACE"
    item_level := 715
    delves := 4
    timewalk := 5
    vault_visited := true }

/-- Witness for C2 at a concrete store and parsed character. -/
theorem C2_merge_update_fields_witness :
    character_store_find [c2existing] c2addon.realm c2addon.name = some 0 ∧
    [c2existing].get? 0 = some c2existing ∧
    (import_step ([c2existing], 0, 0) c2addon =
        ([c2existing].set 0 (merge_update c2existing c2addon), 0, 0 + 1) ∧
      (merge_update c2existing c2addon).guild = c2addon.guild ∧
      (merge_update c2existing c2addon).item_level = c2addon.item_level ∧
      (merge_update c2existing c2addon).heroic_items = c2addon.heroic_items ∧
      (merge_update c2existing c2addon).champion_items = c2addon.champion_items ∧
      (merge_update c2existing c2addon).veteran_items = c2addon.veteran_items ∧
      (merge_update c2existing c2addon).adventure_items = c2addon.adventure_items ∧
      (merge_update c2existing c2addon).old_items = c2addon.old_items ∧
      (merge_update c2existing c2addon).vault_visited = c2addon.vault_visited ∧
      (merge_update c2existing c2addon).delves = c2addon.delves ∧
      (merge_update c2existing c2addon).gilded_stash = c2addon.gilded_stash ∧
      (merge_update c2existing c2addon).gearing_up = c2addon.gearing_up ∧
      (merge_update c2existing c2addon).quests = c2addon.quests ∧
      (merge_update c2existing c2addon).timewalk = c2addon.timewalk ∧
      (merge_update c2existing c2addon).notes = c2existing.notes ∧
      (merge_update c2existing c2addon).realm = c2existing.realm ∧
      (merge_update c2existing c2addon).name = c2existing.name ∧
      (merge_update c2existing c2addon).week_id = c2existing.week_id ∧
      (merge_update c2existing c2addon).dungeons = c2existing.dungeons ∧
      (merge_update c2existing c2addon).vault_t8_plus = c2existing.vault_t8_plus ∧
      (merge_update c2existing c2addon).upgrade_current = c2existing.upgrade_current ∧
      (merge_update c2existing c2addon).upgrade_max = c2existing.upgrade_max ∧
      (merge_update c2existing c2addon).socket_missing_count = c2existing.socket_missing_count ∧
      (merge_update c2existing c2addon).socket_empty_count = c2existing.socket_empty_count ∧
      (merge_update c2existing c2addon).enchant_missing_count = c2existing.enchant_missing_count ∧
      (merge_update c2existing c2addon).slot_upgrades_json = c2existing.slot_upgrades_json ∧
      (merge_update c2existing c2addon).missing_sockets_json = c2existing.missing_sockets_json ∧
      (merge_update c2existing c2addon).empty_sockets_json = c2existing.empty_sockets_json ∧
      (merge_update c2existing c2addon).missing_enchants_json = c2existing.missing_enchants_json) :=
  ⟨rfl, rfl, C2_merge_update_fields [c2existing] 0 0 c2addon 0 c2existing rfl rfl⟩

/-- C9, counterexample: the claim says a projected character with an empty
name is neither inserted nor counted, but projecting the leading-dash key
`-Realm` yields a character whose name is the empty string, and importing
it into an empty collection inserts it with `insertedCount = 1` (the C
guard checks the pointers for NULL, not the strings for emptiness). -/
theorem C9_empty_name_inserted_counterexample :
    (parse_character "-Realm" []).map
        (fun c => (c.name, c.realm, (import_all [c] []).2.1)) =
      some ("", "Realm", 1) := by
  decide

/-- C9, amended: the import loop skips a parsed character only when one of
its strings is absent (NULL); the parser always allocates both, so every
parsed character is processed — with no match it is deep-copied, inserted
and counted, with no non-emptiness requirement on name or realm. -/
theorem C9_merge_processes_all_parsed (store : List Character) (ins upd : ℕ)
    (addon : Character)
    (hfind : character_store_find store addon.realm addon.name = none) :
    import_step (store, ins, upd) addon =
      (store ++ [character_copy addon], ins + 1, upd) := by
  simp only [import_step]
  rw [hfind]

/-- Witness for C9 at a concrete empty-name character and empty store. -/
theorem C9_merge_processes_all_parsed_witness :
    character_new.name = "" ∧
    character_store_find [] character_new.realm character_new.name = none ∧
    import_step ([], 0, 0) character_new = ([character_copy character_new], 0 + 1, 0) :=
  ⟨rfl, rfl, C9_merge_processes_all_parsed [] 0 0 character_new rfl⟩

/-- Projection of the delves field out of a successful parse. -/
theorem parse_character_delves (key : String) (t : LuaTable) (c : Character)
    (hp : parse_character key t = some c) : c.delves = delves_from t := by
  unfold parse_character at hp
  obtain ⟨nr, _, hcrec⟩ := Option.map_eq_some'.mp hp
  rw [← hcrec]

/-- Projection of the timewalk field out of a successful parse. -/
theorem parse_character_timewalk (key : String) (t : LuaTable) (c : Character)
    (hp : parse_character key t = some c) : c.timewalk = timewalk_from t := by
  unfold parse_character at hp
  obtain ⟨nr, _, hcrec⟩ := Option.map_eq_some'.mp hp
  rw [← hcrec]

/-- C3: with `vault_delves.count = n`, a gearing-up character with a
positive count projects `delves = n - 1`; without gearing-up the count is
stored as-is; and a zero count stays zero even when gearing-up is set —
the projected tally never goes negative from the subtraction. -/
theorem C3_delve_derivation (key : String) (t vt : LuaTable) (g : Bool) (n : ℕ)
    (c : Character)
    (ht : luaGetField t "vault_delves" = .table vt)
    (hcount : luaGetField vt "count" = .num (n : ℚ))
    (hg : luaGetField t "gearing_up" = .boolean g)
    (hp : parse_character key t = some c) :
    (g = true → 0 < n → c.delves = (n : ℤ) - 1) ∧
    (g = false → c.delves = (n : ℤ)) ∧
    (g = true → n = 0 → c.delves = 0) := by
  have hdelves := parse_character_delves key t c hp
  have hgup : gearing_up_from t = g := by
    unfold gearing_up_from get_lua_bool
    rw [hg]
    rfl
  have hval : get_nested_number t "vault_delves" "count" = some ((n : ℕ) : ℚ) := by
    unfold get_nested_number luaGetTable? get_lua_number
    rw [ht]
    show luaToNumber? (luaGetField vt "count") = some ((n : ℕ) : ℚ)
    rw [hcount]
    rfl
  have hdf : delves_from t = if g = true ∧ 0 < (n : ℤ) then (n : ℤ) - 1 else (n : ℤ) := by
    simp only [delves_from, hval, hgup, truncToInt_natCast]
  refine ⟨?_, ?_, ?_⟩
  · intro hgt hn
    rw [hdelves, hdf, if_pos ⟨hgt, by exact_mod_cast hn⟩]
  · intro hgf
    rw [hdelves, hdf, if_neg]
    rintro ⟨h1, _⟩
    rw [hgf] at h1
    exact Bool.false_ne_true h1
  · intro _ hn0
    subst hn0
    rw [hdelves, hdf, if_neg]
    · simp
    · rintro ⟨_, h2⟩
      simp at h2

/-- Concrete character table for the C3 witness: gearing-up set, five
recorded delves. -/
def c3t : LuaTable :=
  [(.str "gearing_up", .boolean true),
   (.str "vault_delves", .table [(.str "count", .num ((5 : ℕ) : ℚ))])]

/-- The character the C3 witness projects. -/
def c3proj : Character := (parse_character "Hero-Server" c3t).getD character_new

/-- Witness for C3: five delves with gearing-up project to four. -/
theorem C3_delve_derivation_witness :
    parse_character "Hero-Server" c3t = some c3proj ∧
    c3proj.delves = ((5 : ℕ) : ℤ) - 1 ∧ c3proj.delves = 4 :=
  ⟨rfl,
   (C3_delve_derivation "Hero-Server" c3t
       [(.str "count", .num ((5 : ℕ) : ℚ))] true 5 c3proj rfl rfl rfl rfl).1
     rfl (by decide),
   by decide⟩

/-- Concrete character table for the C4 counterexample: a timewalking
quest with recorded progress 3 but no `completed` flag at all. -/
def c4t : LuaTable :=
  [(.str "timewalking_quest", .table [(.str "progress", .num ((3 : ℕ) : ℚ))])]

/-- C4, counterexample: the claim says that with `completed` false *or
absent* the projected timewalk equals the nested `progress` value; but
when `completed` is absent the code skips the whole timewalk block, so
progress 3 projects to timewalk 0, not 3. -/
theorem C4_timewalk_counterexample :
    (parse_character "Hero-Server" c4t).map Character.timewalk = some 0 ∧
    (parse_character "Hero-Server" c4t).map Character.timewalk ≠ some 3 := by
  exact ⟨by decide, by decide⟩

/-- C4, amended: a present-and-true `completed` flag projects the maximum
(5) regardless of progress; a present-and-false flag projects the nested
`progress` number, 0 when progress is absent; but an *absent* (or
non-boolean) `completed` flag projects 0 even when a progress number is
present — progress is only consulted when the flag is present and false. -/
theorem C4_timewalk_derivation (key : String) (t qt : LuaTable) (c : Character)
    (ht : luaGetField t "timewalking_quest" = .table qt)
    (hp : parse_character key t = some c) :
    (luaGetField qt "completed" = .boolean true → c.timewalk = WST_MAX_TIMEWALK) ∧
    (∀ p : ℕ, luaGetField qt "completed" = .boolean false →
      luaGetField qt "progress" = .num (p : ℚ) → c.timewalk = (p : ℤ)) ∧
    (luaGetField qt "completed" = .boolean false →
      luaGetField qt "progress" = .nil → c.timewalk = 0) ∧
    ((luaGetField qt "completed").isBool = false → c.timewalk = 0) := by
  have htw := parse_character_timewalk key t c hp
  have hnb : get_nested_bool t "timewalking_quest" "completed" =
      luaToBool? (luaGetField qt "completed") := by
    unfold get_nested_bool luaGetTable? get_lua_bool
    rw [ht]
    rfl
  have hprogeq : ∀ v : LuaVal, luaGetField qt "progress" = v →
      get_nested_number t "timewalking_quest" "progress" = luaToNumber? v := by
    intro v hv
    unfold get_nested_number luaGetTable? get_lua_number
    rw [ht]
    show luaToNumber? (luaGetField qt "progress") = luaToNumber? v
    rw [hv]
  refine ⟨?_, ?_, ?_, ?_⟩
  · intro hc
    rw [htw]
    simp only [timewalk_from, hnb, hc, luaToBool?]
  · intro p hcf hprog
    rw [htw]
    simp only [timewalk_from, hnb, hcf, luaToBool?, hprogeq _ hprog, luaToNumber?,
      Option.map_some', Option.getD_some, truncToInt_natCast]
  · intro hcf hprog
    rw [htw]
    simp only [timewalk_from, hnb, hcf, luaToBool?, hprogeq _ hprog, luaToNumber?,
      Option.map_none', Option.getD_none]
  · intro hb
    have hnone : luaToBool? (luaGetField qt "completed") = none := by
      cases hv : luaGetField qt "completed" <;> rw [hv] at hb <;>
        simp [LuaVal.isBool, luaToBool?] at hb ⊢
    rw [htw]
    simp only [timewalk_from, hnb, hnone]

/-- The character the C4 witness projects: progress 3 with an explicit
false `completed` flag. -/
def c4wt : LuaTable :=
  [(.str "timewalking_quest",
    .table [(.str "completed", .boolean false), (.str "progress", .num ((3 : ℕ) : ℚ))])]

/-- The projected character of the C4 witness. -/
def c4proj : Character := (parse_character "Hero-Server" c4wt).getD character_new

/-- Witness for C4: `completed = false` with progress 3 projects timewalk 3. -/
theorem C4_timewalk_derivation_witness :
    parse_character "Hero-Server" c4wt = some c4proj ∧
    c4proj.timewalk = ((3 : ℕ) : ℤ) ∧ c4proj.timewalk = 3 :=
  ⟨rfl,
   (C4_timewalk_derivation "Hero-Server" c4wt
       [(.str "completed", .boolean false), (.str "progress", .num ((3 : ℕ) : ℚ))]
       c4proj rfl rfl).2.1 3 rfl rfl,
   by decide⟩

/-- Whether a value is a string that Lua converts to a number (the string
leg of `lua_isnumber`). -/
def LuaVal.numConvertibleStr : LuaVal → Bool
  | .str s => (luaStrToNum s).isSome
  | _ => false

/-- C8, counterexample: the claim says `getString(key)` is present *only
if* the value under the key is a string; but `lua_isstring` also accepts
numbers, so extracting the number 5 through `get_lua_string` yields the
present value `"5"` although the stored value is not a string. -/
theorem C8_getString_number_counterexample :
    LuaVal.isStr (luaGetField [(LuaVal.str "x", LuaVal.num 5)] "x") = false ∧
    get_lua_string [(LuaVal.str "x", LuaVal.num 5)] "x" = some "5" := by
  exact ⟨rfl, by decide⟩

/-- C8, amended: the extractors never error and a missing key is absent,
but type tolerance follows the Lua coercions — `getString` is present iff
the value is a string *or a number*; `getNumber` is present iff the value
is a number *or a number-convertible string*; `getBool` is strict
(booleans only); the nested variants require the outer key to resolve to
a table (strict) and then apply the same rule to the inner value. -/
theorem C8_extractor_presence (t : LuaTable) (k outer inner : String) :
    ((get_lua_string t k).isSome =
      ((luaGetField t k).isStr || (luaGetField t k).isNum)) ∧
    ((get_lua_number t k).isSome =
      ((luaGetField t k).isNum || (luaGetField t k).numConvertibleStr)) ∧
    ((get_lua_bool t k).isSome = (luaGetField t k).isBool) ∧
    ((get_nested_number t outer inner).isSome =
      (match luaGetField t outer with
        | .table e => (get_lua_number e inner).isSome
        | _ => false)) ∧
    ((get_nested_bool t outer inner).isSome =
      (match luaGetField t outer with
        | .table e => (get_lua_bool e inner).isSome
        | _ => false)) := by
  refine ⟨?_, ?_, ?_, ?_, ?_⟩
  · cases hv : luaGetField t k <;>
      simp [get_lua_string, luaToString?, hv, LuaVal.isStr, LuaVal.isNum]
  · cases hv : luaGetField t k <;>
      simp [get_lua_number, luaToNumber?, hv, LuaVal.isNum, LuaVal.numConvertibleStr]
  · cases hv : luaGetField t k <;>
      simp [get_lua_bool, luaToBool?, hv, LuaVal.isBool]
  · cases hv : luaGetField t outer <;>
      simp [get_nested_number, luaGetTable?, hv]
  · cases hv : luaGetField t outer <;>
      simp [get_nested_bool, luaGetTable?, hv]

/-- C10, amended bounds: whenever `lua_array_to_json_string` returns a
string it is bracket-delimited and at most 510 bytes (the 512-byte buffer
minus the reserve the fit check keeps), and whenever
`slot_upgrades_to_json_string` returns a string it is bracket-delimited
and at most 2046 bytes; entries are dropped, or truncated to the 255-byte
staging buffer, rather than overrunning either buffer. -/
theorem C10_serializers_bounded :
    (∀ (t : LuaTable) (tk ak : String) (s : String),
      lua_array_to_json_string t tk ak = some s →
      (∃ mid, s = "[" ++ mid ++ "]") ∧ s.length ≤ 510) ∧
    (∀ (t : LuaTable) (s : String),
      slot_upgrades_to_json_string t = some s →
      (∃ mid, s = "[" ++ mid ++ "]") ∧ s.length ≤ 2046) := by
  constructor
  · intro t tk ak s h
    unfold lua_array_to_json_string at h
    cases h1 : luaGetTable? t tk with
    | none => rw [h1] at h; exact absurd h (by simp)
    | some outer =>
      rw [h1] at h
      dsimp only at h
      cases h2 : luaGetTable? outer ak with
      | none => rw [h2] at h; exact absurd h (by simp)
      | some arr =>
        rw [h2] at h
        dsimp only at h
        have hs : s = (json_fold 510 array_render arr ("[", true)).1 ++ "]" :=
          (Option.some.injEq _ _ ▸ h).symm
        obtain ⟨q, hq⟩ := json_fold_suffix 510 array_render arr ("[", true)
        have hl : (json_fold 510 array_render arr ("[", true)).1.length < 510 :=
          json_fold_length 510 array_render arr ("[", true) (by decide)
        constructor
        · exact ⟨q, by rw [hs, hq, String.append_assoc]⟩
        · rw [hs, String.length_append]
          have : ("]" : String).length = 1 := rfl
          omega
  · intro t s h
    unfold slot_upgrades_to_json_string at h
    cases h1 : luaGetTable? t "slot_upgrades" with
    | none => rw [h1] at h; exact absurd h (by simp)
    | some su =>
      rw [h1] at h
      dsimp only at h
      by_cases hfst : (json_fold 2046 slot_render su ("[", true)).2
      · rw [if_pos hfst] at h
        exact absurd h (by simp)
      · rw [if_neg hfst] at h
        have hs : s = (json_fold 2046 slot_render su ("[", true)).1 ++ "]" :=
          (Option.some.injEq _ _ ▸ h).symm
        obtain ⟨q, hq⟩ := json_fold_suffix 2046 slot_render su ("[", true)
        have hl : (json_fold 2046 slot_render su ("[", true)).1.length < 2046 :=
          json_fold_length 2046 slot_render su ("[", true) (by decide)
        constructor
        · exact ⟨q, by rw [hs, hq, String.append_assoc]⟩
        · rw [hs, String.length_append]
          have : ("]" : String).length = 1 := rfl
          omega

/-- Concrete input for the C10 witness: a well-formed missing-sockets
array. -/
def c10arr : LuaTable :=
  [(.str "socket_info",
    .table [(.str "missing_sockets",
      .table [(.num 1, .num 1), (.num 2, .num 6), (.num 3, .num 9)])])]

/-- Concrete input for the C10 witness: one small slot-upgrade record. -/
def c10slots : LuaTable :=
  [(.str "slot_upgrades",
    .table [(.num 1,
      .table [(.str "slot", .num 1), (.str "slot_name", .str "Head"),
              (.str "track", .str "Hero"), (.str "current", .num 5),
              (.str "max", .num 8)])])]

/-- Witness for C10 at concrete small inputs for both serializers. -/
theorem C10_serializers_bounded_witness :
    lua_array_to_json_string c10arr "socket_info" "missing_sockets" = some "[1,6,9]" ∧
    ((∃ mid, "[1,6,9]" = "[" ++ mid ++ "]") ∧ ("[1,6,9]" : String).length ≤ 510) ∧
    slot_upgrades_to_json_string c10slots =
      some "[\x7b\"slot\":1,\"slot_name\":\"Head\",\"track\":\"Hero\",\"current\":5,\"max\":8\x7d]" ∧
    ((∃ mid, ("[\x7b\"slot\":1,\"slot_name\":\"Head\",\"track\":\"Hero\",\"current\":5,\"max\":8\x7d]" : String) =
        "[" ++ mid ++ "]") ∧
      ("[\x7b\"slot\":1,\"slot_name\":\"Head\",\"track\":\"Hero\",\"current\":5,\"max\":8\x7d]" : String).length ≤ 2046) :=
  ⟨by decide,
   C10_serializers_bounded.1 c10arr "socket_info" "missing_sockets" "[1,6,9]" (by decide),
   by decide,
   C10_serializers_bounded.2 c10slots _ (by decide)⟩

/-- The oversized track name of the C10 counterexample: 260 characters. -/
def c10track : String := String.mk (List.replicate 260 'a')

/-- Concrete input for the C10 counterexample: one slot-upgrade record
whose full rendering exceeds the 256-byte staging buffer. -/
def c10big : LuaTable :=
  [(.str "slot_upgrades",
    .table [(.num 1,
      .table [(.str "slot", .num 1), (.str "track", .str c10track)])])]

set_option maxRecDepth 200000 in
/-- C10, counterexample: the claim says an entry whose rendered text does
not fit is silently *omitted* and the output stays well-formed; but an
entry whose rendering exceeds the 255-byte staging buffer is truncated
and then *included*: the output is neither absent (it would be, had the
entry been omitted, since nothing else was appended) nor the full
`[entry]` rendering — it is the 255-byte prefix in brackets. -/
theorem C10_slot_truncation_counterexample :
    (slot_upgrades_to_json_string c10big).map String.length = some 257 ∧
    (slot_entry_full true 1 "" c10track 0 0).length = 316 ∧
    slot_upgrades_to_json_string c10big ≠ none ∧
    slot_upgrades_to_json_string c10big ≠
      some ("[" ++ slot_entry_full true 1 "" c10track 0 0 ++ "]") := by
  refine ⟨by decide, by decide, by decide, by decide⟩

end WST
